import Mathlib

/-!
Verification of the safety-aware routing and risk-scoring engine.

Shallow embedding of the Python sources:
- `RiskScorer` models src/risk_scorer.py (temporal periods, mode multipliers,
  route scoring, route comparison/labeling);
- `Safety` models safety.py (temporal multipliers, edge safety weights);
- `CrimeAnalyzer` models src/crime_analyzer.py (zero-incident corridor stats);
- `RouteEngine` models src/route_engine.py (speeds, travel time, alternative
  route deduplication loop).

Machine floats in the source are modelled as exact rationals; Python
`round(x, 1)` is modelled by `py_round1` (rounding of the scaled value to an
integer; the tie-breaking convention differs from Python's only at exact
half-tenths, which no theorem below depends on).
-/

/-- Crime statistics along a route, as returned by
`compute_crime_density_along_route` (src/crime_analyzer.py); the geometric
corridor query itself is abstracted into these counts. -/
structure CrimeStats where
  total_crimes : ℕ
  violent_crimes : ℕ
  avg_severity : ℚ
  recent_30d : ℕ
  recent_7d : ℕ
deriving DecidableEq

/-- Patrol level classification returned by `estimate_patrol_frequency`
(src/risk_scorer.py): the function only ever returns one of these four
strings. -/
inductive PatrolLevel where
  | high
  | moderate
  | low
  | unknown
deriving DecidableEq

/-- Python `round(x, 1)`: round the value scaled by ten to an integer and
scale back. -/
def py_round1 (q : ℚ) : ℚ := ((round (10 * q) : ℤ) : ℚ) / 10

namespace RiskScorer

/-- One entry of `TEMPORAL_PERIODS` (src/risk_scorer.py): half-open hour
interval `[lo, hi)` (Python `hour in range(lo, hi)`), risk multiplier and
display label. -/
structure Period where
  name : String
  lo : ℤ
  hi : ℤ
  multiplier : ℚ
  label : String
deriving DecidableEq

/-- The `TEMPORAL_PERIODS` dict of src/risk_scorer.py, in insertion order. -/
def TEMPORAL_PERIODS : List Period :=
  [⟨"late_night", 0, 6, 9/5, "Late Night (12am-6am)"⟩,
   ⟨"early_morning", 6, 9, 1/2, "Early Morning (6am-9am)"⟩,
   ⟨"daytime", 9, 17, 3/10, "Daytime (9am-5pm)"⟩,
   ⟨"evening", 17, 20, 3/5, "Evening (5pm-8pm)"⟩,
   ⟨"night", 20, 22, 1, "Night (8pm-10pm)"⟩,
   ⟨"late_evening", 22, 24, 3/2, "Late Evening (10pm-12am)"⟩]

/-- The fallback period returned by `get_temporal_period` when no interval
contains the hour (src/risk_scorer.py line 50). -/
def default_period : Period := ⟨"night", 20, 22, 1, "Night"⟩

/-- `get_temporal_period` (src/risk_scorer.py): first period whose hour range
contains the hour; otherwise the fallback "night" period. -/
def get_temporal_period (hour : ℤ) : Period :=
  match TEMPORAL_PERIODS.find? (fun p => decide (p.lo ≤ hour ∧ hour < p.hi)) with
  | some p => p
  | none => default_period

/-- `get_temporal_multiplier` (src/risk_scorer.py). -/
def get_temporal_multiplier (hour : ℤ) : ℚ :=
  (get_temporal_period hour).multiplier

/-- `MODE_MULTIPLIERS.get(mode, 1.0)` (src/risk_scorer.py): dict lookup with
default `1.0`. -/
def mode_multiplier (mode : String) : ℚ :=
  if mode = "walk" then 13/10
  else if mode = "bike" then 1
  else if mode = "drive" then 1/2
  else 1

def CRIME_WEIGHT : ℚ := 9/20
def TEMPORAL_WEIGHT : ℚ := 1/4
def INFRASTRUCTURE_WEIGHT : ℚ := 3/20
def RECENCY_WEIGHT : ℚ := 3/20

/-- `length_factor = max(distance_m / 100.0, 1.0)` (src/risk_scorer.py). -/
def length_factor (distance_m : ℚ) : ℚ := max (distance_m / 100) 1

/-- `crime_score` computation in `score_route` (src/risk_scorer.py lines
178-180): base per-100m crime count weighted by severity, capped at 100. -/
def crime_score (stats : CrimeStats) (distance_m : ℚ) : ℚ :=
  min ((stats.total_crimes * 8 + stats.violent_crimes * 15) / length_factor distance_m
        * (1 + stats.avg_severity)) 100

/-- Recency score in `score_route` (src/risk_scorer.py lines 187-191). -/
def recency_score (stats : CrimeStats) : ℚ :=
  if 0 < stats.recent_7d then min ((stats.recent_7d : ℚ) * 5) 30
  else if 0 < stats.recent_30d then min ((stats.recent_30d : ℚ) * 2) 20
  else 0

/-- Phone reduction in `score_route` (src/risk_scorer.py line 195). -/
def phone_reduction (phone_count : ℕ) : ℚ := min ((phone_count : ℚ) * 3) 15

/-- Patrol reduction dict `{"high": 8, "moderate": 3, "low": 0, "unknown": 0}`
(src/risk_scorer.py lines 199-201). -/
def patrol_reduction : PatrolLevel → ℚ
  | .high => 8
  | .moderate => 3
  | .low => 0
  | .unknown => 0

/-- `raw_score` in `score_route` (src/risk_scorer.py lines 207-213). -/
def raw_score (stats : CrimeStats) (phone_count : ℕ) (patrol : PatrolLevel)
    (distance_m : ℚ) (hour : ℤ) (mode : String) : ℚ :=
  (crime_score stats distance_m * CRIME_WEIGHT
    + get_temporal_multiplier hour * 30 * TEMPORAL_WEIGHT
    + recency_score stats * RECENCY_WEIGHT
    - phone_reduction phone_count * INFRASTRUCTURE_WEIGHT
    - patrol_reduction patrol * INFRASTRUCTURE_WEIGHT) * mode_multiplier mode

/-- `final_score = max(0, min(100, raw_score))` (src/risk_scorer.py line 215). -/
def final_score (stats : CrimeStats) (phone_count : ℕ) (patrol : PatrolLevel)
    (distance_m : ℚ) (hour : ℤ) (mode : String) : ℚ :=
  max 0 (min 100 (raw_score stats phone_count patrol distance_m hour mode))

/-- The `"score"` field of the dict returned by `score_route`
(src/risk_scorer.py line 230): `round(final_score, 1)`. -/
def returned_score (stats : CrimeStats) (phone_count : ℕ) (patrol : PatrolLevel)
    (distance_m : ℚ) (hour : ℤ) (mode : String) : ℚ :=
  py_round1 (final_score stats phone_count patrol distance_m hour mode)

/-- The per-route data `compare_routes` consumes: the route's corridor crime
statistics, phone count and patrol level (the per-route queries of
`score_route` against the shared incident/asset data, abstracted as carried
values), its total distance and its `estimated_time_min` field. -/
structure RouteInfo where
  stats : CrimeStats
  phone_count : ℕ
  patrol_level : PatrolLevel
  distance_m : ℚ
  estimated_time_min : ℚ
deriving DecidableEq

/-- The risk score `compare_routes` sorts by: the `"score"` field of the
route's `score_route` result, i.e. the rounded `round(final_score, 1)`
(src/risk_scorer.py lines 230 and 271). -/
def route_score (hour : ℤ) (mode : String) (r : RouteInfo) : ℚ :=
  returned_score r.stats r.phone_count r.patrol_level r.distance_m hour mode

/-- The `recommendation` labels assigned by `compare_routes`
(src/risk_scorer.py lines 274-282). -/
inductive Recommendation where
  | safestRoute
  | fastestRoute
  | alternative (i : ℕ)
deriving DecidableEq

/-- Minimum `estimated_time_min` over a list of routes (the key of
`min(scored, key=...)` at src/risk_scorer.py line 278). -/
def min_time : List RouteInfo → ℚ
  | [] => 0
  | r :: rs => rs.foldl (fun m x => min m x.estimated_time_min) r.estimated_time_min

/-- Index of `min(scored, key=lambda x: x.estimated_time_min)`: Python `min`
returns the first element attaining the minimum. -/
def fastest_idx (l : List RouteInfo) : ℕ :=
  l.findIdx (fun r => decide (r.estimated_time_min = min_time l))

/-- The label the loop at src/risk_scorer.py lines 274-282 leaves on the
sorted entry at index `i`: index 0 keeps "Safest Route"; a later entry is
"Fastest Route" exactly when it is the globally fastest entry (`r is fastest`,
an identity test against the first minimum-time element of the whole sorted
list), else "Alternative i". -/
def label_for (scored : List RouteInfo) (i : ℕ) : Recommendation :=
  if i = 0 then .safestRoute
  else if i = fastest_idx scored then .fastestRoute
  else .alternative i

/-- The `scored` list after `scored.sort(key=...)` (src/risk_scorer.py line
271): ascending by risk score. Python's `list.sort` is stable; insertion sort
is the matching stable sort. -/
def sorted_scored (hour : ℤ) (mode : String) (routes : List RouteInfo) :
    List RouteInfo :=
  List.insertionSort
    (fun a b => route_score hour mode a ≤ route_score hour mode b) routes

/-- `compare_routes` (src/risk_scorer.py lines 249-284): score every route,
sort ascending by score, then attach recommendation labels by position
(`for i, r in enumerate(scored)`). -/
def compare_routes (hour : ℤ) (mode : String) (routes : List RouteInfo) :
    List (RouteInfo × Recommendation) :=
  (sorted_scored hour mode routes).enum.map
    (fun p => (p.2, label_for (sorted_scored hour mode routes) p.1))

end RiskScorer

namespace Safety

/-- The `TEMPORAL_MULTIPLIERS` dict of safety.py, in insertion order:
`(start, end, multiplier)` triples tested with `start <= hour < end`. -/
def TEMPORAL_MULTIPLIERS : List (String × ℤ × ℤ × ℚ) :=
  [("late_night", 0, 6, 9/5),
   ("early_morning", 6, 9, 1/2),
   ("daytime", 9, 17, 3/10),
   ("evening", 17, 20, 3/5),
   ("night", 20, 22, 1),
   ("late_evening", 22, 24, 3/2)]

/-- `get_temporal_multiplier` (safety.py lines 48-53): first matching interval,
fallback `1.0`. -/
def get_temporal_multiplier (hour : ℤ) : ℚ :=
  match TEMPORAL_MULTIPLIERS.find?
      (fun e => decide (e.2.1 ≤ hour ∧ hour < e.2.2.1)) with
  | some e => e.2.2.2
  | none => 1

def ALPHA : ℚ := 2/5
def BETA : ℚ := 2/5
def GAMMA : ℚ := 1/5

/-- Per-edge body of `compute_safety_weights` (safety.py lines 169-185):
normalized length, temporally weighted crime density, phone term, floored at
`0.001`. -/
def compute_safety_weight (length crime_density phone_score : ℚ) (hour : ℤ) : ℚ :=
  let temporal_mult := get_temporal_multiplier hour
  let norm_length := min (length / 500) 1
  max (ALPHA * norm_length + BETA * (crime_density * temporal_mult)
        + GAMMA * (1 - phone_score)) (1/1000)

end Safety

namespace CrimeAnalyzer

/-- The all-zero statistics dict returned by
`compute_crime_density_along_route` (src/crime_analyzer.py lines 126-134)
when no incident lies inside the route's corridor buffer. -/
def no_incident_stats : CrimeStats := ⟨0, 0, 0, 0, 0⟩

end CrimeAnalyzer

namespace RouteEngine

/-- `SPEEDS.get(mode, SPEEDS["walk"])` (src/route_engine.py lines 21-25, 189):
dict lookup with the walking speed `1.4` m/s as default. -/
def speed_for (mode : String) : ℚ :=
  if mode = "walk" then 7/5
  else if mode = "bike" then 21/5
  else if mode = "drive" then 83/10
  else 7/5

/-- `estimate_travel_time` (src/route_engine.py lines 187-190). -/
def estimate_travel_time (distance_m : ℚ) (mode : String) : ℚ :=
  py_round1 (distance_m / speed_for mode / 60)

/-- `length_key = round(distance_m / 50) * 50` (src/route_engine.py line 126):
the 50-meter dedup bucket of a candidate's total distance. -/
def length_key (d : ℚ) : ℤ := round (d / 50) * 50

/-- Post-loop fallback of `find_alternative_routes` (src/route_engine.py
lines 138-142): if no route survived, use the single best path when one
exists. -/
def alt_finish (fallback : Option ℚ) (routes : List ℚ) : List ℚ :=
  if routes.isEmpty then
    match fallback with
    | some f => [f]
    | none => []
  else routes

/-- The candidate loop of `find_alternative_routes` (src/route_engine.py
lines 111-134), over the stream of extracted route infos (`none` models a
candidate `_extract_route_info` rejected). Each accepted distance's 50-meter
bucket is recorded in `seen` (dropped without effect on the final accepted
route, where the Python set becomes dead); a candidate whose bucket was
already seen is skipped; the loop stops after `num` accepted routes or once
the candidate budget check `count >= num * 5` fires. -/
def alt_go (num : ℕ) (fallback : Option ℚ) :
    List (Option ℚ) → List ℚ → List ℤ → ℕ → List ℚ
  | [], routes, _, _ => alt_finish fallback routes
  | c :: rest, routes, seen, count =>
    if num * 5 ≤ count then alt_finish fallback routes
    else
      match c with
      | none => alt_go num fallback rest routes seen count
      | some d =>
        if length_key d ∈ seen then alt_go num fallback rest routes seen count
        else
          if num ≤ (routes ++ [d]).length then alt_finish fallback (routes ++ [d])
          else alt_go num fallback rest (routes ++ [d]) (length_key d :: seen)
            (count + 1)

/-- `find_alternative_routes` (src/route_engine.py lines 96-144), with the
graph enumeration `nx.shortest_simple_paths` abstracted as the list of
candidate distances it yields (in non-decreasing cost order) and the
single-path fallback `find_route` as an optional distance. -/
def find_alternative_routes (num : ℕ) (cands : List (Option ℚ))
    (fallback : Option ℚ) : List ℚ :=
  alt_go num fallback cands [] [] 0

end RouteEngine

/-- The full behaviour of `compare_routes` on a route list: the output's
route sequence is the stably sorted `scored` list (a permutation of the
input, ascending by risk score, equal-score routes keeping their input
order), index 0 is labeled "Safest Route", a later index is labeled
"Fastest Route" exactly when it is the first index of the whole sorted list
attaining the minimum `estimated_time_min` (so no remaining entry is labeled
"Fastest Route" when the safest route is itself the globally fastest), and
every other later index `i` is labeled "Alternative i". -/
def CompareRoutesSpec (hour : ℤ) (mode : String)
    (routes : List RiskScorer.RouteInfo) : Prop :=
  let out := RiskScorer.compare_routes hour mode routes
  let scored := RiskScorer.sorted_scored hour mode routes
  out.map Prod.fst = scored
  ∧ scored.Perm routes
  ∧ scored.Pairwise
      (fun a b => RiskScorer.route_score hour mode a ≤ RiskScorer.route_score hour mode b)
  ∧ (∀ c : ℚ, scored.filter (fun r => decide (RiskScorer.route_score hour mode r = c))
      = routes.filter (fun r => decide (RiskScorer.route_score hour mode r = c)))
  ∧ out.length = scored.length
  ∧ (∀ hi : 0 < out.length,
      (out.get ⟨0, hi⟩).2 = RiskScorer.Recommendation.safestRoute)
  ∧ (∀ i, ∀ hi : i < out.length, 0 < i →
      ((out.get ⟨i, hi⟩).2 = RiskScorer.Recommendation.fastestRoute
        ↔ i = RiskScorer.fastest_idx scored))
  ∧ (∀ i, ∀ hi : i < out.length, 0 < i → i ≠ RiskScorer.fastest_idx scored →
      (out.get ⟨i, hi⟩).2 = RiskScorer.Recommendation.alternative i)
  ∧ (routes ≠ [] →
      ∃ hk : RiskScorer.fastest_idx scored < scored.length,
        (∀ r ∈ scored,
          (scored.get ⟨RiskScorer.fastest_idx scored, hk⟩).estimated_time_min
            ≤ r.estimated_time_min)
        ∧ ∀ j, ∀ hj : j < scored.length, j < RiskScorer.fastest_idx scored →
            (scored.get ⟨RiskScorer.fastest_idx scored, hk⟩).estimated_time_min
              < (scored.get ⟨j, hj⟩).estimated_time_min)

/-- A crime-free route: empty corridor, no phones, unknown patrol, 100 m,
1 min estimated time. At hour 12 a walk gets final score 117/40, reported
(rounded) as 29/10. -/
def routeA : RiskScorer.RouteInfo :=
  ⟨CrimeAnalyzer.no_incident_stats, 0, PatrolLevel.unknown, 100, 1⟩

/-- A second crime-free route, 200 m and 2 min: same score as `routeA` at any
hour/mode (the score ignores distance when the corridor is crime-free), but a
different route. -/
def routeB : RiskScorer.RouteInfo :=
  ⟨CrimeAnalyzer.no_incident_stats, 0, PatrolLevel.unknown, 200, 2⟩

/-- A route with one (non-violent, zero-severity) corridor crime, 200 m and
2 min: scores strictly higher than `routeA` at hour 12 on a walk (final
score 1053/200, reported as 53/10). -/
def routeC : RiskScorer.RouteInfo :=
  ⟨⟨1, 0, 0, 0, 0⟩, 0, PatrolLevel.unknown, 200, 2⟩

/-! ### Helper lemmas -/

lemma temporal_multiplier_bounds (h : ℤ) :
    0 ≤ RiskScorer.get_temporal_multiplier h
    ∧ RiskScorer.get_temporal_multiplier h ≤ 9/5 := by
  rcases hf : RiskScorer.TEMPORAL_PERIODS.find?
      (fun p => decide (p.lo ≤ h ∧ h < p.hi)) with _ | p
  · simp only [RiskScorer.get_temporal_multiplier, RiskScorer.get_temporal_period, hf]
    norm_num [RiskScorer.default_period]
  · have hp := List.mem_of_find?_eq_some hf
    simp only [RiskScorer.get_temporal_multiplier, RiskScorer.get_temporal_period, hf]
    simp only [RiskScorer.TEMPORAL_PERIODS, List.mem_cons, List.not_mem_nil, or_false] at hp
    rcases hp with rfl | rfl | rfl | rfl | rfl | rfl <;> norm_num

lemma mode_multiplier_bounds (m : String) :
    0 ≤ RiskScorer.mode_multiplier m ∧ RiskScorer.mode_multiplier m ≤ 13/10 := by
  unfold RiskScorer.mode_multiplier
  split_ifs <;> norm_num

lemma one_le_length_factor (d : ℚ) : 1 ≤ RiskScorer.length_factor d :=
  le_max_right _ _

lemma py_round1_bounds {q : ℚ} (h0 : 0 ≤ q) (h100 : q ≤ 100) :
    0 ≤ py_round1 q ∧ py_round1 q ≤ 100 := by
  constructor
  · have hr : (0 : ℤ) ≤ round (10 * q) := by
      rw [round_eq]
      exact Int.floor_nonneg.mpr (by linarith)
    unfold py_round1
    exact div_nonneg (by exact_mod_cast hr) (by norm_num)
  · have hr : round (10 * q) ≤ 1000 := by
      by_contra hc
      push_neg at hc
      have h3 : (1001 : ℤ) ≤ round (10 * q) := by omega
      have h4 : (1001 : ℚ) ≤ ((round (10 * q) : ℤ) : ℚ) := by exact_mod_cast h3
      linarith [round_le_add_half (10 * q)]
    unfold py_round1
    rw [div_le_iff₀ (by norm_num : (0:ℚ) < 10)]
    calc ((round (10 * q) : ℤ) : ℚ) ≤ 1000 := by exact_mod_cast hr
      _ = 100 * 10 := by norm_num

/-! ### Claims -/

/-- Claim C1: for every integer hour in [0,23] the temporal risk model
returns exactly one multiplier; the six half-open intervals of
`TEMPORAL_PERIODS` cover the hour exactly once (no gap, no overlap), both
`get_temporal_period` (src/risk_scorer.py) and `get_temporal_multiplier`
(safety.py) return the containing interval's multiplier, and that multiplier
is [0,6)=1.8, [6,9)=0.5, [9,17)=0.3, [17,20)=0.6, [20,22)=1.0, [22,24)=1.5. -/
theorem temporal_partition_unique (h : ℤ) (h0 : 0 ≤ h) (h23 : h ≤ 23) :
    RiskScorer.TEMPORAL_PERIODS.countP
        (fun p => decide (p.lo ≤ h ∧ h < p.hi)) = 1
    ∧ (∀ p ∈ RiskScorer.TEMPORAL_PERIODS, p.lo ≤ h → h < p.hi →
        RiskScorer.get_temporal_multiplier h = p.multiplier
        ∧ Safety.get_temporal_multiplier h = p.multiplier)
    ∧ RiskScorer.get_temporal_multiplier h =
        (if h < 6 then 9/5 else if h < 9 then 1/2 else if h < 17 then 3/10
         else if h < 20 then 3/5 else if h < 22 then 1 else 3/2) := by
  interval_cases h <;>
    exact ⟨by decide, by
      norm_num [RiskScorer.TEMPORAL_PERIODS, List.forall_mem_cons,
        RiskScorer.get_temporal_multiplier, RiskScorer.get_temporal_period,
        Safety.get_temporal_multiplier, Safety.TEMPORAL_MULTIPLIERS,
        List.find?]⟩

theorem temporal_partition_unique_witness :
    (0 ≤ (14:ℤ) ∧ (14:ℤ) ≤ 23)
    ∧ (RiskScorer.TEMPORAL_PERIODS.countP
        (fun p => decide (p.lo ≤ (14:ℤ) ∧ (14:ℤ) < p.hi)) = 1
    ∧ (∀ p ∈ RiskScorer.TEMPORAL_PERIODS, p.lo ≤ (14:ℤ) → (14:ℤ) < p.hi →
        RiskScorer.get_temporal_multiplier 14 = p.multiplier
        ∧ Safety.get_temporal_multiplier 14 = p.multiplier)
    ∧ RiskScorer.get_temporal_multiplier 14 =
        (if (14:ℤ) < 6 then 9/5 else if (14:ℤ) < 9 then 1/2
         else if (14:ℤ) < 17 then 3/10 else if (14:ℤ) < 20 then 3/5
         else if (14:ℤ) < 22 then 1 else 3/2)) :=
  ⟨⟨by decide, by decide⟩, temporal_partition_unique 14 (by decide) (by decide)⟩

/-- Claim C2 counterexample: at hour 24 (outside [0,23]) nothing is rejected:
`get_temporal_period` silently substitutes its default "night" entry,
`get_temporal_multiplier` (both files) returns the default multiplier 1.0, and
`compute_safety_weights` proceeds to annotate a normal weight with it —
contradicting the claimed `InvalidInput` rejection. -/
theorem hour_out_of_range_counterexample :
    RiskScorer.get_temporal_multiplier 24 = 1
    ∧ RiskScorer.get_temporal_period 24 = RiskScorer.default_period
    ∧ Safety.get_temporal_multiplier 24 = 1
    ∧ Safety.compute_safety_weight 100 0 0 24 = 7/25 := by
  norm_num [RiskScorer.get_temporal_multiplier, RiskScorer.get_temporal_period,
    RiskScorer.TEMPORAL_PERIODS, RiskScorer.default_period,
    Safety.get_temporal_multiplier, Safety.TEMPORAL_MULTIPLIERS,
    Safety.compute_safety_weight, Safety.ALPHA, Safety.BETA, Safety.GAMMA,
    List.find?, min_def, max_def]

/-- Claim C2 amended: for every integer hour outside [0,23] the temporal
model does not reject the input; both temporal functions silently substitute
the default multiplier 1.0 and the safety-weight annotation is computed
normally with it. -/
theorem hour_out_of_range_default (h : ℤ) (L D P : ℚ) (hout : h < 0 ∨ 23 < h) :
    RiskScorer.get_temporal_multiplier h = 1
    ∧ Safety.get_temporal_multiplier h = 1
    ∧ Safety.compute_safety_weight L D P h
        = max (2/5 * min (L / 500) 1 + 2/5 * D + 1/5 * (1 - P)) (1/1000) := by
  have hr : RiskScorer.TEMPORAL_PERIODS.find?
      (fun p => decide (p.lo ≤ h ∧ h < p.hi)) = none := by
    rw [List.find?_eq_none]
    intro p hp
    simp only [decide_eq_true_eq]
    simp only [RiskScorer.TEMPORAL_PERIODS, List.mem_cons, List.not_mem_nil,
      or_false] at hp
    rcases hp with rfl | rfl | rfl | rfl | rfl | rfl <;> · dsimp only; omega
  have hs : Safety.TEMPORAL_MULTIPLIERS.find?
      (fun e => decide (e.2.1 ≤ h ∧ h < e.2.2.1)) = none := by
    rw [List.find?_eq_none]
    intro e he
    simp only [decide_eq_true_eq]
    simp only [Safety.TEMPORAL_MULTIPLIERS, List.mem_cons, List.not_mem_nil,
      or_false] at he
    rcases he with rfl | rfl | rfl | rfl | rfl | rfl <;> · dsimp only; omega
  refine ⟨?_, ?_, ?_⟩
  · simp only [RiskScorer.get_temporal_multiplier, RiskScorer.get_temporal_period,
      hr, RiskScorer.default_period]
  · simp only [Safety.get_temporal_multiplier, hs]
  · simp only [Safety.compute_safety_weight, Safety.get_temporal_multiplier, hs]
    norm_num [Safety.ALPHA, Safety.BETA, Safety.GAMMA]

theorem hour_out_of_range_default_witness :
    ((24:ℤ) < 0 ∨ (23:ℤ) < 24)
    ∧ (RiskScorer.get_temporal_multiplier 24 = 1
    ∧ Safety.get_temporal_multiplier 24 = 1
    ∧ Safety.compute_safety_weight 250 2 (1/2) 24
        = max (2/5 * min ((250:ℚ) / 500) 1 + 2/5 * 2 + 1/5 * (1 - 1/2)) (1/1000)) :=
  ⟨by decide, hour_out_of_range_default 24 250 2 (1/2) (by decide)⟩

/-- Claim C3: every annotated edge safety weight equals
`max(0.4·min(L/500,1) + 0.4·(D·temporalMultiplier(h)) + 0.2·(1−P), 1e-3)` and
is therefore strictly positive. -/
theorem safety_weight_formula_positive (L D P : ℚ) (h : ℤ) :
    Safety.compute_safety_weight L D P h
      = max (2/5 * min (L / 500) 1
          + 2/5 * (D * Safety.get_temporal_multiplier h) + 1/5 * (1 - P)) (1/1000)
    ∧ 0 < Safety.compute_safety_weight L D P h := by
  constructor
  · rfl
  · exact lt_of_lt_of_le (by norm_num) (le_max_right _ _)

/-- Claim C4: for every combination of route statistics, phone count, patrol
level, distance, hour and mode, both the clamped final score of `score_route`
and the rounded `"score"` field it returns lie in [0,100]. -/
theorem final_score_in_range (stats : CrimeStats) (pc : ℕ) (pl : PatrolLevel)
    (d : ℚ) (hour : ℤ) (mode : String) :
    0 ≤ RiskScorer.final_score stats pc pl d hour mode
    ∧ RiskScorer.final_score stats pc pl d hour mode ≤ 100
    ∧ 0 ≤ RiskScorer.returned_score stats pc pl d hour mode
    ∧ RiskScorer.returned_score stats pc pl d hour mode ≤ 100 := by
  have h0 : 0 ≤ RiskScorer.final_score stats pc pl d hour mode :=
    le_max_left 0 _
  have h100 : RiskScorer.final_score stats pc pl d hour mode ≤ 100 :=
    max_le (by norm_num) (min_le_left _ _)
  obtain ⟨hr0, hr100⟩ := py_round1_bounds h0 h100
  exact ⟨h0, h100, hr0, hr100⟩

/-- Claim C5 counterexample: a route with zero incidents in its corridor but
5 emergency phones nearby scores 0, not the claimed
`temporalMultiplier·30·0.25·modeMultiplier = 117/40` (hour 12, walk): the
phone reduction is subtracted even on a crime-free route. -/
theorem zero_crime_score_counterexample :
    RiskScorer.final_score CrimeAnalyzer.no_incident_stats 5
        PatrolLevel.unknown 100 12 "walk" = 0
    ∧ RiskScorer.get_temporal_multiplier 12 * 30 * (1/4 : ℚ)
        * RiskScorer.mode_multiplier "walk" = 117/40
    ∧ (0:ℚ) ≠ 117/40 := by
  norm_num [RiskScorer.final_score, RiskScorer.raw_score, RiskScorer.crime_score,
    RiskScorer.recency_score, RiskScorer.phone_reduction,
    RiskScorer.patrol_reduction, RiskScorer.length_factor,
    RiskScorer.mode_multiplier, RiskScorer.CRIME_WEIGHT,
    RiskScorer.TEMPORAL_WEIGHT, RiskScorer.RECENCY_WEIGHT,
    RiskScorer.INFRASTRUCTURE_WEIGHT, RiskScorer.get_temporal_multiplier,
    RiskScorer.get_temporal_period, RiskScorer.TEMPORAL_PERIODS,
    CrimeAnalyzer.no_incident_stats, List.find?, min_def, max_def]

/-- Claim C5 amended: for every route whose corridor buffer contains zero
incidents, along which no emergency phone is counted and whose patrol level
yields zero reduction, `score_route` yields `crime_score = 0`,
`recency_score = 0` and a final score exactly equal to
`temporalMultiplier · 30 · 0.25 · modeMultiplier`. -/
theorem zero_crime_final_score (d : ℚ) (hour : ℤ) (mode : String)
    (pl : PatrolLevel) (hpl : RiskScorer.patrol_reduction pl = 0) :
    RiskScorer.crime_score CrimeAnalyzer.no_incident_stats d = 0
    ∧ RiskScorer.recency_score CrimeAnalyzer.no_incident_stats = 0
    ∧ RiskScorer.final_score CrimeAnalyzer.no_incident_stats 0 pl d hour mode
        = RiskScorer.get_temporal_multiplier hour * 30 * (1/4 : ℚ)
          * RiskScorer.mode_multiplier mode := by
  have hcs : RiskScorer.crime_score CrimeAnalyzer.no_incident_stats d = 0 := by
    unfold RiskScorer.crime_score
    norm_num [CrimeAnalyzer.no_incident_stats]
  have hrs : RiskScorer.recency_score CrimeAnalyzer.no_incident_stats = 0 := rfl
  have hraw : RiskScorer.raw_score CrimeAnalyzer.no_incident_stats 0 pl d hour mode
      = RiskScorer.get_temporal_multiplier hour * 30 * (1/4 : ℚ)
        * RiskScorer.mode_multiplier mode := by
    unfold RiskScorer.raw_score
    rw [hcs, hrs, hpl]
    norm_num [RiskScorer.phone_reduction, RiskScorer.CRIME_WEIGHT,
      RiskScorer.TEMPORAL_WEIGHT, RiskScorer.RECENCY_WEIGHT,
      RiskScorer.INFRASTRUCTURE_WEIGHT]
    try ring
  obtain ⟨hm0, hm18⟩ := temporal_multiplier_bounds hour
  obtain ⟨hw0, hw13⟩ := mode_multiplier_bounds mode
  have hx0 : 0 ≤ RiskScorer.get_temporal_multiplier hour * 30 * (1/4 : ℚ)
      * RiskScorer.mode_multiplier mode := by
    have := mul_nonneg (mul_nonneg (mul_nonneg hm0 (by norm_num : (0:ℚ) ≤ 30))
      (by norm_num : (0:ℚ) ≤ 1/4)) hw0
    exact this
  have hx100 : RiskScorer.get_temporal_multiplier hour * 30 * (1/4 : ℚ)
      * RiskScorer.mode_multiplier mode ≤ 100 := by nlinarith
  refine ⟨hcs, hrs, ?_⟩
  unfold RiskScorer.final_score
  rw [hraw, min_eq_right hx100, max_eq_right hx0]

theorem zero_crime_final_score_witness :
    RiskScorer.patrol_reduction PatrolLevel.low = 0
    ∧ (RiskScorer.crime_score CrimeAnalyzer.no_incident_stats 350 = 0
    ∧ RiskScorer.recency_score CrimeAnalyzer.no_incident_stats = 0
    ∧ RiskScorer.final_score CrimeAnalyzer.no_incident_stats 0
          PatrolLevel.low 350 22 "bike"
        = RiskScorer.get_temporal_multiplier 22 * 30 * (1/4 : ℚ)
          * RiskScorer.mode_multiplier "bike") :=
  ⟨rfl, zero_crime_final_score 350 22 "bike" PatrolLevel.low rfl⟩

/-- Claim C9: for an otherwise-fixed route (same total crimes, distance and
average severity), increasing the violent-crime count never decreases the
computed crime score. -/
theorem crime_score_monotone_violent (t v v' r30 r7 : ℕ) (sev d : ℚ)
    (hsev : 0 ≤ sev) (hv : v ≤ v') :
    RiskScorer.crime_score ⟨t, v, sev, r30, r7⟩ d
      ≤ RiskScorer.crime_score ⟨t, v', sev, r30, r7⟩ d := by
  unfold RiskScorer.crime_score
  dsimp only
  apply min_le_min _ le_rfl
  apply mul_le_mul_of_nonneg_right _ (by linarith)
  have hlf : 0 < RiskScorer.length_factor d :=
    lt_of_lt_of_le one_pos (one_le_length_factor d)
  rw [div_le_div_iff_of_pos_right hlf]
  have hvq : (v : ℚ) ≤ (v' : ℚ) := by exact_mod_cast hv
  linarith

theorem crime_score_monotone_violent_witness :
    (0 ≤ (0:ℚ) ∧ (0:ℕ) ≤ 1)
    ∧ RiskScorer.crime_score ⟨1, 0, 0, 0, 0⟩ 0
        ≤ RiskScorer.crime_score ⟨1, 1, 0, 0, 0⟩ 0 :=
  ⟨⟨le_rfl, by decide⟩, crime_score_monotone_violent 1 0 1 0 0 0 0 le_rfl (by decide)⟩

/-- Claim C10: for every mode string other than "walk", "bike", "drive", the
scoring and time-estimation operations do not fail: the mode multiplier
defaults to 1.0 and the travel-time estimate falls back to the walking speed
1.4 m/s. -/
theorem unknown_mode_defaults (m : String) (d : ℚ)
    (hw : m ≠ "walk") (hb : m ≠ "bike") (hd : m ≠ "drive") :
    RiskScorer.mode_multiplier m = 1
    ∧ RouteEngine.speed_for m = 7/5
    ∧ RouteEngine.estimate_travel_time d m = py_round1 (d / (7/5) / 60) := by
  have h1 : RiskScorer.mode_multiplier m = 1 := by
    unfold RiskScorer.mode_multiplier
    rw [if_neg hw, if_neg hb, if_neg hd]
  have h2 : RouteEngine.speed_for m = 7/5 := by
    unfold RouteEngine.speed_for
    rw [if_neg hw, if_neg hb, if_neg hd]
  refine ⟨h1, h2, ?_⟩
  unfold RouteEngine.estimate_travel_time
  rw [h2]

theorem unknown_mode_defaults_witness :
    ("scooter" ≠ "walk" ∧ "scooter" ≠ "bike" ∧ "scooter" ≠ "drive")
    ∧ (RiskScorer.mode_multiplier "scooter" = 1
    ∧ RouteEngine.speed_for "scooter" = 7/5
    ∧ RouteEngine.estimate_travel_time 840 "scooter"
        = py_round1 ((840:ℚ) / (7/5) / 60)) :=
  ⟨⟨by decide, by decide, by decide⟩,
    unknown_mode_defaults "scooter" 840 (by decide) (by decide) (by decide)⟩

lemma alt_finish_spec (fallback : Option ℚ) (routes : List ℚ) (num : ℕ)
    (hnum : 1 ≤ num) (hlen : routes.length ≤ num)
    (hpw : routes.Pairwise
      (fun a b => RouteEngine.length_key a ≠ RouteEngine.length_key b)) :
    (RouteEngine.alt_finish fallback routes).Pairwise
        (fun a b => RouteEngine.length_key a ≠ RouteEngine.length_key b)
    ∧ (RouteEngine.alt_finish fallback routes).length ≤ num
    ∧ ((routes ≠ [] ∨ fallback.isSome = true) →
        1 ≤ (RouteEngine.alt_finish fallback routes).length) := by
  unfold RouteEngine.alt_finish
  by_cases h : routes.isEmpty
  · rw [if_pos h]
    have hr : routes = [] := List.isEmpty_iff.mp h
    subst hr
    rcases fallback with _ | f
    · simp
    · simp
      omega
  · rw [if_neg h]
    have hne : routes ≠ [] := by simpa [List.isEmpty_iff] using h
    exact ⟨hpw, hlen, fun _ => List.length_pos.mpr hne⟩

lemma alt_go_spec (num : ℕ) (fallback : Option ℚ) (hnum : 1 ≤ num) :
    ∀ (cands : List (Option ℚ)) (routes : List ℚ) (seen : List ℤ) (count : ℕ),
      count = routes.length →
      routes.length < num →
      routes.Pairwise
        (fun a b => RouteEngine.length_key a ≠ RouteEngine.length_key b) →
      (∀ d ∈ routes, RouteEngine.length_key d ∈ seen) →
      (routes = [] → seen = []) →
      (RouteEngine.alt_go num fallback cands routes seen count).Pairwise
          (fun a b => RouteEngine.length_key a ≠ RouteEngine.length_key b)
      ∧ (RouteEngine.alt_go num fallback cands routes seen count).length ≤ num
      ∧ ((routes ≠ [] ∨ (∃ d, some d ∈ cands) ∨ fallback.isSome = true) →
          1 ≤ (RouteEngine.alt_go num fallback cands routes seen count).length) := by
  intro cands
  induction cands with
  | nil =>
    intro routes seen count hcount hlen hpw hseen hempty
    simp only [RouteEngine.alt_go]
    obtain ⟨q1, q2, q3⟩ := alt_finish_spec fallback routes num hnum hlen.le hpw
    refine ⟨q1, q2, fun hc => q3 ?_⟩
    rcases hc with hne | ⟨d, hd⟩ | hf
    · exact Or.inl hne
    · exact absurd hd (List.not_mem_nil _)
    · exact Or.inr hf
  | cons c rest ih =>
    intro routes seen count hcount hlen hpw hseen hempty
    simp only [RouteEngine.alt_go]
    have hbudget : ¬ (num * 5 ≤ count) := by omega
    rw [if_neg hbudget]
    rcases c with _ | d
    · obtain ⟨p1, p2, p3⟩ := ih routes seen count hcount hlen hpw hseen hempty
      refine ⟨p1, p2, fun hc => p3 ?_⟩
      rcases hc with hne | ⟨e, he⟩ | hf
      · exact Or.inl hne
      · rcases List.mem_cons.mp he with h0 | h0
        · exact absurd h0 (by simp)
        · exact Or.inr (Or.inl ⟨e, h0⟩)
      · exact Or.inr (Or.inr hf)
    · dsimp only
      by_cases hk : RouteEngine.length_key d ∈ seen
      · rw [if_pos hk]
        have hne : routes ≠ [] := by
          intro h0
          rw [hempty h0] at hk
          exact (List.not_mem_nil _) hk
        obtain ⟨p1, p2, p3⟩ := ih routes seen count hcount hlen hpw hseen hempty
        exact ⟨p1, p2, fun _ => p3 (Or.inl hne)⟩
      · rw [if_neg hk]
        have hpw' : (routes ++ [d]).Pairwise
            (fun a b => RouteEngine.length_key a ≠ RouteEngine.length_key b) := by
          rw [List.pairwise_append]
          refine ⟨hpw, List.pairwise_singleton _ _, fun a ha b hb => ?_⟩
          rw [List.mem_singleton] at hb
          subst hb
          exact fun hEq => hk (hEq ▸ hseen a ha)
        by_cases hfull : num ≤ (routes ++ [d]).length
        · rw [if_pos hfull]
          have hlen' : (routes ++ [d]).length ≤ num := by
            simp only [List.length_append, List.length_singleton]
            omega
          obtain ⟨q1, q2, q3⟩ := alt_finish_spec fallback (routes ++ [d]) num hnum hlen' hpw'
          exact ⟨q1, q2, fun _ => q3 (Or.inl (by simp))⟩
        · rw [if_neg hfull]
          have hseen' : ∀ e ∈ routes ++ [d],
              RouteEngine.length_key e ∈ RouteEngine.length_key d :: seen := by
            intro e he
            rcases List.mem_append.mp he with h0 | h0
            · exact List.mem_cons_of_mem _ (hseen e h0)
            · rw [List.mem_singleton] at h0
              subst h0
              exact List.mem_cons_self _ _
          have hlen'' : (routes ++ [d]).length < num := by
            simp only [List.length_append, List.length_singleton] at hfull ⊢
            omega
          obtain ⟨p1, p2, p3⟩ := ih (routes ++ [d]) (RouteEngine.length_key d :: seen)
            (count + 1) (by simp [hcount]) hlen'' hpw' hseen' (by simp)
          exact ⟨p1, p2, fun _ => p3 (Or.inl (by simp))⟩

/-- Claim C8 amended: for every candidate stream with at least one extractable
candidate (or a fallback single path), requesting `num ≥ 1` alternatives
returns between 1 and `num` routes whose 50-meter rounding buckets
(`round(d/50)·50`) are pairwise distinct; distances in adjacent buckets can
differ by less than 50 meters. -/
theorem alt_routes_bucket_distinct (num : ℕ) (cands : List (Option ℚ))
    (fallback : Option ℚ) (hnum : 1 ≤ num)
    (hsome : (∃ d, some d ∈ cands) ∨ fallback.isSome = true) :
    1 ≤ (RouteEngine.find_alternative_routes num cands fallback).length
    ∧ (RouteEngine.find_alternative_routes num cands fallback).length ≤ num
    ∧ (RouteEngine.find_alternative_routes num cands fallback).Pairwise
        (fun a b => RouteEngine.length_key a ≠ RouteEngine.length_key b) := by
  obtain ⟨p1, p2, p3⟩ := alt_go_spec num fallback hnum cands [] [] 0 rfl
    (by simp only [List.length_nil]; omega) (by simp) (by simp) (fun _ => rfl)
  exact ⟨p3 (Or.inr hsome), p2, p1⟩

theorem alt_routes_bucket_distinct_witness :
    (1 ≤ 3
      ∧ ((∃ d, some d ∈ [some (74:ℚ), some 76])
          ∨ (none : Option ℚ).isSome = true))
    ∧ (1 ≤ (RouteEngine.find_alternative_routes 3 [some 74, some 76] none).length
    ∧ (RouteEngine.find_alternative_routes 3 [some 74, some 76] none).length ≤ 3
    ∧ (RouteEngine.find_alternative_routes 3 [some 74, some 76] none).Pairwise
        (fun a b => RouteEngine.length_key a ≠ RouteEngine.length_key b)) :=
  ⟨⟨by norm_num, Or.inl ⟨74, by simp⟩⟩,
    alt_routes_bucket_distinct 3 [some 74, some 76] none (by norm_num)
      (Or.inl ⟨74, by simp⟩)⟩

/-- Claim C8 counterexample: candidate distances 74 m and 76 m fall into
distinct 50-meter rounding buckets (50 and 100), so the dedup loop accepts
both, yet they differ by only 2 m — refuting that every pair of returned
routes differs in total distance by more than 50 meters. -/
theorem alt_routes_within_50m :
    RouteEngine.find_alternative_routes 3 [some 74, some 76] none = [74, 76]
    ∧ RouteEngine.length_key 74 = 50 ∧ RouteEngine.length_key 76 = 100
    ∧ |(76:ℚ) - 74| ≤ 50 := by
  have h74 : RouteEngine.length_key 74 = 50 := by
    unfold RouteEngine.length_key
    rw [round_eq,
      show (⌊(74:ℚ)/50 + 1/2⌋ = 1) from Int.floor_eq_iff.mpr (by norm_num)]
    norm_num
  have h76 : RouteEngine.length_key 76 = 100 := by
    unfold RouteEngine.length_key
    rw [round_eq,
      show (⌊(76:ℚ)/50 + 1/2⌋ = 2) from Int.floor_eq_iff.mpr (by norm_num)]
    norm_num
  refine ⟨?_, h74, h76, by rw [abs_le]; norm_num⟩
  simp [RouteEngine.find_alternative_routes, RouteEngine.alt_go,
    RouteEngine.alt_finish, h74, h76]

lemma compare_map_fst (hour : ℤ) (mode : String)
    (routes : List RiskScorer.RouteInfo) :
    (RiskScorer.compare_routes hour mode routes).map Prod.fst
      = RiskScorer.sorted_scored hour mode routes := by
  unfold RiskScorer.compare_routes
  rw [List.map_map]
  have h : (Prod.fst ∘ fun p : ℕ × RiskScorer.RouteInfo =>
      (p.2, RiskScorer.label_for (RiskScorer.sorted_scored hour mode routes) p.1))
      = Prod.snd := rfl
  rw [h, List.enum_map_snd]

lemma compare_length (hour : ℤ) (mode : String)
    (routes : List RiskScorer.RouteInfo) :
    (RiskScorer.compare_routes hour mode routes).length
      = (RiskScorer.sorted_scored hour mode routes).length := by
  unfold RiskScorer.compare_routes
  rw [List.length_map, List.enum_length]

lemma compare_get (hour : ℤ) (mode : String) (routes : List RiskScorer.RouteInfo)
    (i : ℕ) (hi : i < (RiskScorer.compare_routes hour mode routes).length)
    (hi' : i < (RiskScorer.sorted_scored hour mode routes).length) :
    (RiskScorer.compare_routes hour mode routes).get ⟨i, hi⟩
      = ((RiskScorer.sorted_scored hour mode routes).get ⟨i, hi'⟩,
         RiskScorer.label_for (RiskScorer.sorted_scored hour mode routes) i) := by
  unfold RiskScorer.compare_routes
  simp only [List.get_eq_getElem, List.getElem_map, List.getElem_enum]

lemma sorted_scored_sorted (hour : ℤ) (mode : String)
    (routes : List RiskScorer.RouteInfo) :
    (RiskScorer.sorted_scored hour mode routes).Pairwise
      (fun a b => RiskScorer.route_score hour mode a
        ≤ RiskScorer.route_score hour mode b) := by
  haveI h1 : IsTotal RiskScorer.RouteInfo
      (fun a b => RiskScorer.route_score hour mode a
        ≤ RiskScorer.route_score hour mode b) := ⟨fun a b => le_total _ _⟩
  haveI h2 : IsTrans RiskScorer.RouteInfo
      (fun a b => RiskScorer.route_score hour mode a
        ≤ RiskScorer.route_score hour mode b) :=
    ⟨fun a b c hab hbc => le_trans hab hbc⟩
  exact List.sorted_insertionSort _ _

lemma filter_key_orderedInsert {α : Type} (f : α → ℚ) (c : ℚ) (a : α)
    (l : List α) :
    (l.orderedInsert (fun x y => f x ≤ f y) a).filter (fun x => decide (f x = c))
      = if f a = c then a :: l.filter (fun x => decide (f x = c))
        else l.filter (fun x => decide (f x = c)) := by
  induction l with
  | nil =>
    by_cases h : f a = c <;> simp [List.orderedInsert, h]
  | cons b t ih =>
    by_cases hab : f a ≤ f b
    · rw [List.orderedInsert_of_le (fun x y => f x ≤ f y) t hab]
      by_cases h : f a = c <;> simp [List.filter_cons, h]
    · have hinsert : (b :: t).orderedInsert (fun x y => f x ≤ f y) a
          = b :: t.orderedInsert (fun x y => f x ≤ f y) a := by
        simp [List.orderedInsert, hab]
      rw [hinsert]
      by_cases h : f a = c
      · have hb : ¬ (f b = c) := by
          have hba : f b < f a := lt_of_not_le hab
          rw [h] at hba
          exact ne_of_lt hba
        simp [List.filter_cons, hb, ih, h]
      · by_cases hbc : f b = c <;> simp [List.filter_cons, hbc, ih, h]

lemma filter_key_insertionSort {α : Type} (f : α → ℚ) (c : ℚ) (l : List α) :
    (l.insertionSort (fun x y => f x ≤ f y)).filter (fun x => decide (f x = c))
      = l.filter (fun x => decide (f x = c)) := by
  induction l with
  | nil => rfl
  | cons b t ih =>
    simp only [List.insertionSort]
    rw [filter_key_orderedInsert]
    by_cases h : f b = c <;> simp [List.filter_cons, h, ih]

lemma foldl_min_le_init (l : List RiskScorer.RouteInfo) (a : ℚ) :
    l.foldl (fun m x => min m x.estimated_time_min) a ≤ a := by
  induction l generalizing a with
  | nil => exact le_rfl
  | cons b t ih =>
    simp only [List.foldl]
    exact le_trans (ih _) (min_le_left _ _)

lemma foldl_min_le_mem (l : List RiskScorer.RouteInfo) :
    ∀ (a : ℚ) (x : RiskScorer.RouteInfo), x ∈ l →
      l.foldl (fun m y => min m y.estimated_time_min) a
        ≤ x.estimated_time_min := by
  induction l with
  | nil =>
    intro a x hx
    cases hx
  | cons b t ih =>
    intro a x hx
    simp only [List.foldl]
    rcases List.mem_cons.mp hx with rfl | h
    · exact le_trans (foldl_min_le_init t _) (min_le_right _ _)
    · exact ih _ x h

lemma foldl_min_choice (l : List RiskScorer.RouteInfo) (a : ℚ) :
    l.foldl (fun m y => min m y.estimated_time_min) a = a
    ∨ ∃ x ∈ l, l.foldl (fun m y => min m y.estimated_time_min) a
        = x.estimated_time_min := by
  induction l generalizing a with
  | nil => exact Or.inl rfl
  | cons b t ih =>
    simp only [List.foldl]
    rcases ih (min a b.estimated_time_min) with h | ⟨x, hx, hfx⟩
    · rcases min_choice a b.estimated_time_min with hm | hm
      · exact Or.inl (h.trans hm)
      · exact Or.inr ⟨b, List.mem_cons_self _ _, h.trans hm⟩
    · exact Or.inr ⟨x, List.mem_cons_of_mem _ hx, hfx⟩

lemma min_time_le (l : List RiskScorer.RouteInfo) (x : RiskScorer.RouteInfo)
    (hx : x ∈ l) : RiskScorer.min_time l ≤ x.estimated_time_min := by
  cases l with
  | nil => cases hx
  | cons b t =>
    unfold RiskScorer.min_time
    rcases List.mem_cons.mp hx with rfl | h
    · exact foldl_min_le_init t _
    · exact foldl_min_le_mem t _ x h

lemma fastest_idx_lt_aux (l : List RiskScorer.RouteInfo)
    (h : RiskScorer.fastest_idx l < l.length) :
    List.findIdx (fun r => decide (r.estimated_time_min = RiskScorer.min_time l))
      l < l.length := h

lemma min_time_attained (l : List RiskScorer.RouteInfo) (hne : l ≠ []) :
    ∃ x ∈ l, x.estimated_time_min = RiskScorer.min_time l := by
  cases l with
  | nil => exact absurd rfl hne
  | cons b t =>
    unfold RiskScorer.min_time
    rcases foldl_min_choice t b.estimated_time_min with h | ⟨x, hx, hfx⟩
    · exact ⟨b, List.mem_cons_self _ _, h.symm⟩
    · exact ⟨x, List.mem_cons_of_mem _ hx, hfx.symm⟩

lemma fastest_idx_lt (l : List RiskScorer.RouteInfo) (hne : l ≠ []) :
    RiskScorer.fastest_idx l < l.length := by
  obtain ⟨x, hx, hfx⟩ := min_time_attained l hne
  exact List.findIdx_lt_length_of_exists ⟨x, hx, by simp [hfx]⟩

lemma fastest_idx_time (l : List RiskScorer.RouteInfo)
    (h : RiskScorer.fastest_idx l < l.length) :
    (l.get ⟨RiskScorer.fastest_idx l, h⟩).estimated_time_min
      = RiskScorer.min_time l := by
  have hp := @List.findIdx_getElem _
    (fun r => decide (r.estimated_time_min = RiskScorer.min_time l)) l
    (fastest_idx_lt_aux l h)
  simpa [List.get_eq_getElem, RiskScorer.fastest_idx] using hp

lemma fastest_idx_first (l : List RiskScorer.RouteInfo) (j : ℕ)
    (hj : j < l.length) (hlt : j < RiskScorer.fastest_idx l) :
    (l.get ⟨j, hj⟩).estimated_time_min ≠ RiskScorer.min_time l := by
  have hp := List.not_of_lt_findIdx hlt
  simpa [List.get_eq_getElem, RiskScorer.fastest_idx] using hp

lemma eq_of_perm_sorted_distinct {α : Type} (f : α → ℚ) :
    ∀ (l₁ l₂ : List α), l₁.Perm l₂ →
      l₁.Pairwise (fun a b => f a ≤ f b) →
      l₂.Pairwise (fun a b => f a ≤ f b) →
      l₁.Pairwise (fun a b => f a ≠ f b) → l₁ = l₂ := by
  intro l₁
  induction l₁ with
  | nil =>
    intro l₂ hp _ _ _
    exact hp.nil_eq
  | cons a t ih =>
    intro l₂ hp hs1 hs2 hd
    cases l₂ with
    | nil =>
      have := hp.length_eq
      simp at this
    | cons b t₂ =>
      have hab : a = b := by
        by_contra hne
        have ha2 : a ∈ b :: t₂ := hp.mem_iff.mp (List.mem_cons_self _ _)
        have hb1 : b ∈ a :: t := hp.symm.mem_iff.mp (List.mem_cons_self _ _)
        have ha : a ∈ t₂ := by
          rcases List.mem_cons.mp ha2 with h0 | h0
          · exact absurd h0 hne
          · exact h0
        have hb : b ∈ t := by
          rcases List.mem_cons.mp hb1 with h0 | h0
          · exact absurd h0.symm hne
          · exact h0
        have h1 : f a ≤ f b := (List.pairwise_cons.mp hs1).1 b hb
        have h2 : f b ≤ f a := (List.pairwise_cons.mp hs2).1 a ha
        exact (List.pairwise_cons.mp hd).1 b hb (le_antisymm h1 h2)
      subst hab
      have hpt : t.Perm t₂ := hp.cons_inv
      rw [ih t₂ hpt (List.pairwise_cons.mp hs1).2 (List.pairwise_cons.mp hs2).2
        (List.pairwise_cons.mp hd).2]

lemma sorted_scored_eq_of_perm (hour : ℤ) (mode : String)
    (l₁ l₂ : List RiskScorer.RouteInfo) (hperm : l₁.Perm l₂)
    (hdist : l₁.Pairwise
      (fun a b => RiskScorer.route_score hour mode a
        ≠ RiskScorer.route_score hour mode b)) :
    RiskScorer.sorted_scored hour mode l₁
      = RiskScorer.sorted_scored hour mode l₂ := by
  apply eq_of_perm_sorted_distinct (RiskScorer.route_score hour mode)
  · exact (List.perm_insertionSort _ l₁).trans
      (hperm.trans (List.perm_insertionSort _ l₂).symm)
  · exact sorted_scored_sorted hour mode l₁
  · exact sorted_scored_sorted hour mode l₂
  · exact ((List.perm_insertionSort _ l₁).pairwise_iff
      (fun h => Ne.symm h)).mpr hdist

lemma final_score_routeA :
    RiskScorer.final_score routeA.stats routeA.phone_count routeA.patrol_level
      routeA.distance_m 12 "walk" = 117/40 := by
  norm_num [RiskScorer.final_score, RiskScorer.raw_score,
    RiskScorer.crime_score, RiskScorer.recency_score, RiskScorer.phone_reduction,
    RiskScorer.patrol_reduction, RiskScorer.length_factor,
    RiskScorer.mode_multiplier, RiskScorer.get_temporal_multiplier,
    RiskScorer.get_temporal_period, RiskScorer.TEMPORAL_PERIODS,
    RiskScorer.CRIME_WEIGHT, RiskScorer.TEMPORAL_WEIGHT,
    RiskScorer.RECENCY_WEIGHT, RiskScorer.INFRASTRUCTURE_WEIGHT,
    CrimeAnalyzer.no_incident_stats, routeA, List.find?, min_def, max_def]

lemma route_score_routeA : RiskScorer.route_score 12 "walk" routeA = 29/10 := by
  unfold RiskScorer.route_score RiskScorer.returned_score
  rw [final_score_routeA]
  unfold py_round1
  rw [round_eq,
    show (⌊10 * (117/40 : ℚ) + 1/2⌋ = 29) from Int.floor_eq_iff.mpr (by norm_num)]
  norm_num

lemma final_score_routeB :
    RiskScorer.final_score routeB.stats routeB.phone_count routeB.patrol_level
      routeB.distance_m 12 "walk" = 117/40 := by
  norm_num [RiskScorer.final_score, RiskScorer.raw_score,
    RiskScorer.crime_score, RiskScorer.recency_score, RiskScorer.phone_reduction,
    RiskScorer.patrol_reduction, RiskScorer.length_factor,
    RiskScorer.mode_multiplier, RiskScorer.get_temporal_multiplier,
    RiskScorer.get_temporal_period, RiskScorer.TEMPORAL_PERIODS,
    RiskScorer.CRIME_WEIGHT, RiskScorer.TEMPORAL_WEIGHT,
    RiskScorer.RECENCY_WEIGHT, RiskScorer.INFRASTRUCTURE_WEIGHT,
    CrimeAnalyzer.no_incident_stats, routeB, List.find?, min_def, max_def]

lemma route_score_routeB : RiskScorer.route_score 12 "walk" routeB = 29/10 := by
  unfold RiskScorer.route_score RiskScorer.returned_score
  rw [final_score_routeB]
  unfold py_round1
  rw [round_eq,
    show (⌊10 * (117/40 : ℚ) + 1/2⌋ = 29) from Int.floor_eq_iff.mpr (by norm_num)]
  norm_num

lemma final_score_routeC :
    RiskScorer.final_score routeC.stats routeC.phone_count routeC.patrol_level
      routeC.distance_m 12 "walk" = 1053/200 := by
  norm_num [RiskScorer.final_score, RiskScorer.raw_score,
    RiskScorer.crime_score, RiskScorer.recency_score, RiskScorer.phone_reduction,
    RiskScorer.patrol_reduction, RiskScorer.length_factor,
    RiskScorer.mode_multiplier, RiskScorer.get_temporal_multiplier,
    RiskScorer.get_temporal_period, RiskScorer.TEMPORAL_PERIODS,
    RiskScorer.CRIME_WEIGHT, RiskScorer.TEMPORAL_WEIGHT,
    RiskScorer.RECENCY_WEIGHT, RiskScorer.INFRASTRUCTURE_WEIGHT,
    routeC, List.find?, min_def, max_def]

lemma route_score_routeC : RiskScorer.route_score 12 "walk" routeC = 53/10 := by
  unfold RiskScorer.route_score RiskScorer.returned_score
  rw [final_score_routeC]
  unfold py_round1
  rw [round_eq,
    show (⌊10 * (1053/200 : ℚ) + 1/2⌋ = 53) from Int.floor_eq_iff.mpr (by norm_num)]
  norm_num

lemma sorted_scored_AB :
    RiskScorer.sorted_scored 12 "walk" [routeA, routeB] = [routeA, routeB] := by
  unfold RiskScorer.sorted_scored
  simp only [List.insertionSort, List.orderedInsert_nil]
  rw [List.orderedInsert_of_le
    (fun a b => RiskScorer.route_score 12 "walk" a
      ≤ RiskScorer.route_score 12 "walk" b) ([] : List RiskScorer.RouteInfo)
    (le_of_eq (route_score_routeA.trans route_score_routeB.symm))]

lemma sorted_scored_BA :
    RiskScorer.sorted_scored 12 "walk" [routeB, routeA] = [routeB, routeA] := by
  unfold RiskScorer.sorted_scored
  simp only [List.insertionSort, List.orderedInsert_nil]
  rw [List.orderedInsert_of_le
    (fun a b => RiskScorer.route_score 12 "walk" a
      ≤ RiskScorer.route_score 12 "walk" b) ([] : List RiskScorer.RouteInfo)
    (le_of_eq (route_score_routeB.trans route_score_routeA.symm))]

lemma sorted_scored_AC :
    RiskScorer.sorted_scored 12 "walk" [routeA, routeC] = [routeA, routeC] := by
  unfold RiskScorer.sorted_scored
  simp only [List.insertionSort, List.orderedInsert_nil]
  rw [List.orderedInsert_of_le
    (fun a b => RiskScorer.route_score 12 "walk" a
      ≤ RiskScorer.route_score 12 "walk" b) ([] : List RiskScorer.RouteInfo)
    (by
      show RiskScorer.route_score 12 "walk" routeA
        ≤ RiskScorer.route_score 12 "walk" routeC
      rw [route_score_routeA, route_score_routeC]
      norm_num)]

lemma min_time_AC : RiskScorer.min_time [routeA, routeC] = 1 := by
  norm_num [RiskScorer.min_time, List.foldl, routeA, routeC, min_def]

lemma fastest_idx_AC : RiskScorer.fastest_idx [routeA, routeC] = 0 := by
  unfold RiskScorer.fastest_idx
  rw [min_time_AC]
  norm_num [List.findIdx_cons, routeA]

/-- Claim C6 counterexample: two candidates at hour 12 on a walk, `routeA`
(crime-free, fastest overall) and `routeC` (one corridor crime, slower).
Sorted order is `[routeA, routeC]`; among the remaining entries `[routeC]`
the minimum-time route is `routeC`, yet `compare_routes` labels it
"Alternative 1" and labels nothing "Fastest Route", because the code computes
the fastest entry over ALL routes (here the safest itself) rather than over
the remaining ones. -/
theorem fastest_label_counterexample :
    RiskScorer.sorted_scored 12 "walk" [routeA, routeC] = [routeA, routeC]
    ∧ (RiskScorer.compare_routes 12 "walk" [routeA, routeC]).map Prod.snd
        = [RiskScorer.Recommendation.safestRoute,
           RiskScorer.Recommendation.alternative 1]
    ∧ RiskScorer.Recommendation.fastestRoute
        ∉ (RiskScorer.compare_routes 12 "walk" [routeA, routeC]).map Prod.snd := by
  have hmap : (RiskScorer.compare_routes 12 "walk" [routeA, routeC]).map Prod.snd
      = [RiskScorer.Recommendation.safestRoute,
         RiskScorer.Recommendation.alternative 1] := by
    unfold RiskScorer.compare_routes
    rw [sorted_scored_AC]
    simp [List.enum, List.enumFrom, RiskScorer.label_for, fastest_idx_AC]
  refine ⟨sorted_scored_AC, hmap, ?_⟩
  rw [hmap]
  simp

/-- Claim C6 amended: `compare_routes` scores each candidate, sorts ascending
by score with a stable sort (ties keep original generation order), labels
index 0 "Safest Route", determines the first minimum-travel-time entry over
ALL sorted entries (not just the remaining ones), labels a remaining entry
"Fastest Route" exactly when it is that global entry (so nothing is labeled
"Fastest Route" when the safest route is itself the fastest), and labels
every other remaining entry "Alternative N" by position. -/
theorem compare_routes_labeling (hour : ℤ) (mode : String)
    (routes : List RiskScorer.RouteInfo) (hne : routes ≠ []) :
    CompareRoutesSpec hour mode routes := by
  unfold CompareRoutesSpec
  dsimp only
  have hsne : RiskScorer.sorted_scored hour mode routes ≠ [] := by
    intro h0
    have hperm : (RiskScorer.sorted_scored hour mode routes).Perm routes :=
      List.perm_insertionSort _ routes
    rw [h0] at hperm
    exact hne hperm.nil_eq.symm
  refine ⟨compare_map_fst hour mode routes, List.perm_insertionSort _ routes,
    sorted_scored_sorted hour mode routes, ?_, compare_length hour mode routes,
    ?_, ?_, ?_, ?_⟩
  · intro c
    exact filter_key_insertionSort (RiskScorer.route_score hour mode) c routes
  · intro hi
    have hi' : 0 < (RiskScorer.sorted_scored hour mode routes).length := by
      rw [← compare_length hour mode routes]
      exact hi
    rw [compare_get hour mode routes 0 hi hi']
    simp [RiskScorer.label_for]
  · intro i hi hpos
    have hi' : i < (RiskScorer.sorted_scored hour mode routes).length := by
      rw [← compare_length hour mode routes]
      exact hi
    rw [compare_get hour mode routes i hi hi']
    simp only [RiskScorer.label_for, if_neg (Nat.pos_iff_ne_zero.mp hpos)]
    by_cases hf : i = RiskScorer.fastest_idx (RiskScorer.sorted_scored hour mode routes)
    · simp [hf]
    · simp [hf]
  · intro i hi hpos hf
    have hi' : i < (RiskScorer.sorted_scored hour mode routes).length := by
      rw [← compare_length hour mode routes]
      exact hi
    rw [compare_get hour mode routes i hi hi']
    simp only [RiskScorer.label_for, if_neg (Nat.pos_iff_ne_zero.mp hpos), if_neg hf]
  · intro _
    refine ⟨fastest_idx_lt _ hsne, fun r hr => ?_, fun j hj hjlt => ?_⟩
    · rw [fastest_idx_time _ (fastest_idx_lt _ hsne)]
      exact min_time_le _ r hr
    · rw [fastest_idx_time _ (fastest_idx_lt _ hsne)]
      have hne' := fastest_idx_first _ j hj hjlt
      have hle := min_time_le _ _ (List.get_mem (RiskScorer.sorted_scored hour mode routes) j hj)
      exact lt_of_le_of_ne hle (Ne.symm hne')

theorem compare_routes_labeling_witness :
    ([routeA, routeC] : List RiskScorer.RouteInfo) ≠ []
    ∧ CompareRoutesSpec 12 "walk" [routeA, routeC] :=
  ⟨by simp, compare_routes_labeling 12 "walk" [routeA, routeC] (by simp)⟩

/-- Claim C7 counterexample: `routeA` and `routeB` are distinct crime-free
routes with equal risk scores. Permuting the input list swaps the (stably
sorted) output order and changes the labels, so `compare_routes` is not
order-independent. -/
theorem compare_routes_order_dependent :
    ([routeA, routeB] : List RiskScorer.RouteInfo).Perm [routeB, routeA]
    ∧ RiskScorer.compare_routes 12 "walk" [routeA, routeB]
        ≠ RiskScorer.compare_routes 12 "walk" [routeB, routeA] := by
  refine ⟨List.Perm.swap _ _ _, ?_⟩
  intro hEq
  have hmap := congrArg (List.map Prod.fst) hEq
  rw [compare_map_fst, compare_map_fst, sorted_scored_AB, sorted_scored_BA] at hmap
  injection hmap with h1 _
  have h2 : (100 : ℚ) = 200 := congrArg RiskScorer.RouteInfo.distance_m h1
  norm_num at h2

/-- Claim C7 amended: `compare_routes` is order-independent on route lists
whose risk scores are pairwise distinct: permuting such an input list yields
the same sorted output sequence and the same labels. (With tied scores the
stable sort keeps input order, so permutations of tied routes change the
output.) -/
theorem compare_routes_perm_invariant (hour : ℤ) (mode : String)
    (l₁ l₂ : List RiskScorer.RouteInfo) (hperm : l₁.Perm l₂)
    (hdist : l₁.Pairwise
      (fun a b => RiskScorer.route_score hour mode a
        ≠ RiskScorer.route_score hour mode b)) :
    RiskScorer.compare_routes hour mode l₁
      = RiskScorer.compare_routes hour mode l₂ := by
  have hs := sorted_scored_eq_of_perm hour mode l₁ l₂ hperm hdist
  unfold RiskScorer.compare_routes
  rw [hs]

theorem compare_routes_perm_invariant_witness :
    (([routeA, routeC] : List RiskScorer.RouteInfo).Perm [routeC, routeA]
      ∧ ([routeA, routeC] : List RiskScorer.RouteInfo).Pairwise
          (fun a b => RiskScorer.route_score 12 "walk" a
            ≠ RiskScorer.route_score 12 "walk" b))
    ∧ RiskScorer.compare_routes 12 "walk" [routeA, routeC]
        = RiskScorer.compare_routes 12 "walk" [routeC, routeA] := by
  have hd : ([routeA, routeC] : List RiskScorer.RouteInfo).Pairwise
      (fun a b => RiskScorer.route_score 12 "walk" a
        ≠ RiskScorer.route_score 12 "walk" b) := by
    refine List.pairwise_cons.mpr ⟨?_, List.pairwise_singleton _ _⟩
    intro b hb
    rw [List.mem_singleton] at hb
    subst hb
    rw [route_score_routeA, route_score_routeC]
    norm_num
  exact ⟨⟨List.Perm.swap _ _ _, hd⟩,
    compare_routes_perm_invariant 12 "walk" _ _ (List.Perm.swap _ _ _) hd⟩
